import Mathlib

/-!
Verification of the resilient event propagation engine of the
go-performance-enablement repository: the CDC dispatcher and parser
(`kafka-consumer/processor`), the Kafka consumption loop
(`kafka-consumer/consumer`), and the circuit-breaker-guarded propagation
pipeline with dead-letter fallback (`lambdas/event-router/main.go`).

The Go code is shallowly embedded: machine time instants are `Nat`
parameters threaded explicitly (`time.Now()` becomes a `now` argument),
`time.Duration` is `Nat`, Go errors are `Except String` / `Option String`,
and external I/O outcomes (the EventBridge publish, the zstd compression,
the SQS dead-letter send, the Kafka poll and commit) are injected as
arguments so that every control-flow branch of the source is represented.
-/

/-! ## JSON values

Models the JSON documents carried in Kafka message values.  JSON numbers
are modelled as integers: the fractional-number and integer-overflow edge
cases of Go's decoder play no role in any claim considered here. -/

inductive Json where
  | null
  | bool (b : Bool)
  | num (n : Int)
  | str (s : String)
  | arr (elements : List Json)
  | obj (fields : List (String × Json))

/-- Go map assignment `m[k] = v` on a map modelled as an association list:
replace the existing binding if present, otherwise append. -/
def setKey (m : List (String × Json)) (k : String) (v : Json) : List (String × Json) :=
  if m.any (fun p => p.1 == k) then m.map (fun p => if p.1 == k then (k, v) else p)
  else m ++ [(k, v)]

/-- Decoding a JSON object into an existing Go `map[string]interface{}`:
every entry of the object is assigned into the map in order. -/
def mergeObj (cur : List (String × Json)) (fields : List (String × Json)) : List (String × Json) :=
  fields.foldl (fun acc kv => setKey acc kv.1 kv.2) cur

/-! ## Go `time.Time` and RFC3339

`time.Time` values are modelled by their RFC3339 text; the zero value is
the empty string.  `time.Time.UnmarshalJSON` accepts `null` (a no-op) or a
quoted RFC3339 string; anything else is a decode error.  `isRFC3339`
models `time.Parse(time.RFC3339, s)` succeeding: date and clock fields
with valid ranges, an optional fractional-second part, and a `Z` or
signed `hh:mm` offset. -/

abbrev GoTime := String

def allDigits (cs : List Char) : Bool := cs.all (fun c => c.isDigit)

def natOfDigits (cs : List Char) : Nat := cs.foldl (fun n c => 10 * n + (c.toNat - 48)) 0

def isLeapYear (y : Nat) : Bool := (y % 4 == 0 && y % 100 != 0) || y % 400 == 0

def daysInMonth (y m : Nat) : Nat :=
  if m == 2 then (if isLeapYear y then 29 else 28)
  else if m == 4 || m == 6 || m == 9 || m == 11 then 30
  else 31

def validOffset : List Char → Bool
  | ['Z'] => true
  | [sgn, h1, h2, ':', m1, m2] =>
      (sgn == '+' || sgn == '-') && allDigits [h1, h2, m1, m2] &&
      Nat.ble (natOfDigits [h1, h2]) 23 && Nat.ble (natOfDigits [m1, m2]) 59
  | _ => false

def validFracOffset (cs : List Char) : Bool :=
  match cs with
  | '.' :: rest =>
      let frac := rest.takeWhile (fun c => c.isDigit)
      (!frac.isEmpty) && validOffset (rest.dropWhile (fun c => c.isDigit))
  | _ => validOffset cs

def isRFC3339 (s : String) : Bool :=
  match s.data with
  | y1 :: y2 :: y3 :: y4 :: '-' :: m1 :: m2 :: '-' :: d1 :: d2 :: 'T' ::
      h1 :: h2 :: ':' :: n1 :: n2 :: ':' :: s1 :: s2 :: rest =>
      allDigits [y1, y2, y3, y4, m1, m2, d1, d2, h1, h2, n1, n2, s1, s2] &&
      Nat.ble 1 (natOfDigits [m1, m2]) && Nat.ble (natOfDigits [m1, m2]) 12 &&
      Nat.ble 1 (natOfDigits [d1, d2]) &&
      Nat.ble (natOfDigits [d1, d2])
        (daysInMonth (natOfDigits [y1, y2, y3, y4]) (natOfDigits [m1, m2])) &&
      Nat.ble (natOfDigits [h1, h2]) 23 && Nat.ble (natOfDigits [n1, n2]) 59 &&
      Nat.ble (natOfDigits [s1, s2]) 59 &&
      validFracOffset rest
  | _ => false

/-! ## `pkg/events/types.go`: the CDC data model -/

def OperationInsert : String := "INSERT"

def OperationUpdate : String := "UPDATE"

def OperationDelete : String := "DELETE"

def OperationRefresh : String := "REFRESH"

structure CDCMetadata where
  sourceDatabase : String := ""
  sourceTable : String := ""
  lsn : String := ""
  scn : String := ""
  offset : Int := 0
  partition : Int := 0
  captureTime : GoTime := ""
  applyTime : GoTime := ""

structure CDCEvent where
  operation : String := ""
  tableName : String := ""
  schema : String := ""
  timestamp : GoTime := ""
  transactionID : String := ""
  before : List (String × Json) := []
  after : List (String × Json) := []
  primaryKeys : List (String × Json) := []
  metadata : CDCMetadata := {}

/-! ## `encoding/json` decoding of a `CDCEvent`

`json.Unmarshal(data, &cdcEvent)` succeeds exactly when the document is
`null` (leaving the zero value) or an object each of whose occurrences of
a recognized field key carries a value of the field's type; unknown keys
are ignored.  On success the fields are applied in document order (Go
reports the first field error but the partially-decoded struct is
discarded by the caller, so only the error/success outcome and the
all-fields-applied success value are observable).  String fields accept a
string or `null`; `time.Time` fields accept an RFC3339 string or `null`;
integer fields accept a number or `null`; `map[string]interface{}` fields
accept an object (merged entry by entry) or `null`; the nested
`CDCMetadata` struct accepts an object or `null`. -/

def strFieldOk : Json → Bool
  | .str _ => true
  | .null => true
  | _ => false

def timeFieldOk : Json → Bool
  | .str s => isRFC3339 s
  | .null => true
  | _ => false

def intFieldOk : Json → Bool
  | .num _ => true
  | .null => true
  | _ => false

def mapFieldOk : Json → Bool
  | .obj _ => true
  | .null => true
  | _ => false

def metadataFieldOk (k : String) (v : Json) : Bool :=
  if k == "source_database" || k == "source_table" || k == "lsn" || k == "scn" then strFieldOk v
  else if k == "offset" || k == "partition" then intFieldOk v
  else if k == "capture_time" || k == "apply_time" then timeFieldOk v
  else true

def metadataObjOk : Json → Bool
  | .obj fs => fs.all (fun kv => metadataFieldOk kv.1 kv.2)
  | .null => true
  | _ => false

def cdcFieldOk (k : String) (v : Json) : Bool :=
  if k == "operation" || k == "table_name" || k == "schema" || k == "transaction_id" then
    strFieldOk v
  else if k == "timestamp" then timeFieldOk v
  else if k == "before" || k == "after" || k == "primary_keys" then mapFieldOk v
  else if k == "metadata" then metadataObjOk v
  else true

def applyMetadataField (m : CDCMetadata) (k : String) (v : Json) : CDCMetadata :=
  match k, v with
  | "source_database", .str s => { m with sourceDatabase := s }
  | "source_table", .str s => { m with sourceTable := s }
  | "lsn", .str s => { m with lsn := s }
  | "scn", .str s => { m with scn := s }
  | "offset", .num n => { m with offset := n }
  | "partition", .num n => { m with partition := n }
  | "capture_time", .str s => { m with captureTime := s }
  | "apply_time", .str s => { m with applyTime := s }
  | _, _ => m

def applyCDCField (e : CDCEvent) (k : String) (v : Json) : CDCEvent :=
  match k, v with
  | "operation", .str s => { e with operation := s }
  | "table_name", .str s => { e with tableName := s }
  | "schema", .str s => { e with schema := s }
  | "transaction_id", .str s => { e with transactionID := s }
  | "timestamp", .str s => { e with timestamp := s }
  | "before", .obj fs => { e with before := mergeObj e.before fs }
  | "after", .obj fs => { e with after := mergeObj e.after fs }
  | "primary_keys", .obj fs => { e with primaryKeys := mergeObj e.primaryKeys fs }
  | "metadata", .obj fs =>
      { e with metadata := fs.foldl (fun acc kv => applyMetadataField acc kv.1 kv.2) e.metadata }
  | _, _ => e

def decodeCDCFields (fs : List (String × Json)) : CDCEvent :=
  fs.foldl (fun acc kv => applyCDCField acc kv.1 kv.2) {}

def jsonUnmarshalCDCEvent (j : Json) : Except String CDCEvent :=
  match j with
  | .null => .ok {}
  | .obj fs =>
      if fs.all (fun kv => cdcFieldOk kv.1 kv.2) then .ok (decodeCDCFields fs)
      else .error "json: cannot unmarshal value into CDCEvent"
  | _ => .error "json: cannot unmarshal value into CDCEvent"

/-! ## Kafka messages -/

/-- The raw bytes of a Kafka message value: either a syntactically valid
JSON document or byte content that is not JSON (e.g. Avro binary). -/
inductive RawValue where
  | json (j : Json)
  | nonJSON

structure KafkaMessage where
  topic : String := ""
  partition : Int := 0
  offset : Int := 0
  value : RawValue
  timestampValid : Bool := false
  msgTimestamp : Nat := 0

/-! ## `kafka-consumer/processor` (src/unnamed/part_009): the CDC dispatcher

The processor used by `kafka-consumer/main.go` is built with
`NewCDCProcessor`, which leaves the Avro `codec` nil, and `SetAvroCodec`
is never called by the consumer binary; so when `json.Unmarshal` fails
(malformed bytes or a type error) `parseCDCEvent` falls through past the
`p.codec != nil` guard and returns the "unsupported format" error. -/

namespace CDCProcessor

def parseCDCEvent (msg : KafkaMessage) : Except String CDCEvent :=
  match msg.value with
  | .json j =>
      match jsonUnmarshalCDCEvent j with
      | .ok ev => .ok ev
      | .error _ => .error "failed to parse CDC event: unsupported format"
  | .nonJSON => .error "failed to parse CDC event: unsupported format"

/-- The four extension handlers log and return nil in the source. -/
def handleInsert (_ev : CDCEvent) : Except String Unit := .ok ()

def handleUpdate (_ev : CDCEvent) : Except String Unit := .ok ()

def handleDelete (_ev : CDCEvent) : Except String Unit := .ok ()

end CDCProcessor

namespace CDCProcessor

def handleRefresh (_ev : CDCEvent) : Except String Unit := .ok ()

end CDCProcessor

inductive CDCHandler where
  | insert
  | update
  | delete
  | refresh

/-- The `switch cdcEvent.Operation` statement of `CDCProcessor.Process`:
strict routing by operation tag, with the `default` arm producing the
"unknown operation" error. -/
def dispatchCDC (ev : CDCEvent) : Except String CDCHandler :=
  if ev.operation = OperationInsert then .ok .insert
  else if ev.operation = OperationUpdate then .ok .update
  else if ev.operation = OperationDelete then .ok .delete
  else if ev.operation = OperationRefresh then .ok .refresh
  else .error ("unknown operation: " ++ ev.operation)

namespace CDCProcessor

/-- `CDCProcessor.Process`: parse the message, route by operation tag,
invoke the handler, wrapping a parse failure as
"failed to parse CDC event: %w" and a dispatch/handler failure as
"failed to process CDC event: %w". -/
def Process (msg : KafkaMessage) : Except String Unit :=
  match parseCDCEvent msg with
  | .error e => .error ("failed to parse CDC event: " ++ e)
  | .ok ev =>
      let r : Except String Unit :=
        match dispatchCDC ev with
        | .ok .insert => handleInsert ev
        | .ok .update => handleUpdate ev
        | .ok .delete => handleDelete ev
        | .ok .refresh => handleRefresh ev
        | .error e => .error e
      match r with
      | .error e => .error ("failed to process CDC event: " ++ e)
      | .ok _ => .ok ()

end CDCProcessor

/-! ## `kafka-consumer/consumer` (src/unnamed/part_008): the consumption loop -/

/-- Outcome of `consumer.ReadMessage(1 * time.Second)`: a timeout (the
`kafka.ErrTimedOut` code), a read error, or a received message. -/
inductive PollResult where
  | timedOut
  | readErr (e : String)
  | msg (m : KafkaMessage)

structure ConsumeOutcome where
  commitAttempted : Bool
  committed : Bool
  ret : Option String

namespace KafkaConsumer

/-- `KafkaConsumer.consumeMessage`: poll with a bounded timeout (a timeout
is a silent nil return), process the message, and commit the offset only
after successful processing; the outcome of the synchronous
`CommitMessage` call is injected as `commitRes`. -/
def consumeMessage (poll : PollResult) (process : KafkaMessage → Except String Unit)
    (commitRes : Except String Unit) : ConsumeOutcome :=
  match poll with
  | .timedOut => { commitAttempted := false, committed := false, ret := none }
  | .readErr e =>
      { commitAttempted := false
        committed := false
        ret := some ("failed to read message: " ++ e) }
  | .msg m =>
      match process m with
      | .error e => { commitAttempted := false, committed := false, ret := some e }
      | .ok _ =>
          match commitRes with
          | .error e =>
              { commitAttempted := true
                committed := false
                ret := some ("failed to commit offset: " ++ e) }
          | .ok _ => { commitAttempted := true, committed := true, ret := none }

end KafkaConsumer

/-! ## `lambdas/event-router/main.go`: circuit breaker

States are the string constants of `pkg/events/types.go`.  `time.Now()`
is the explicit `now : Nat` argument of `Execute`; `time.Since(t) > d`
becomes `now - t > d` (time is monotone, so truncated subtraction agrees
with the Go duration comparison).  The outcome of the wrapped function
`fn` is injected as `fnErr : Option String`; `invoked` records whether
`fn` was actually called. -/

def CircuitBreakerClosed : String := "closed"

def CircuitBreakerOpen : String := "open"

def CircuitBreakerHalfOpen : String := "half_open"

structure CircuitBreaker where
  maxFailures : Nat
  timeout : Nat
  state : String
  failureCount : Nat
  successCount : Nat
  lastFailure : Nat
  lastStateChange : Nat

def NewCircuitBreaker (maxFailures timeout now : Nat) : CircuitBreaker :=
  { maxFailures := maxFailures
    timeout := timeout
    state := CircuitBreakerClosed
    failureCount := 0
    successCount := 0
    lastFailure := 0
    lastStateChange := now }

structure ExecOutcome where
  cb : CircuitBreaker
  invoked : Bool
  result : Except String Unit

def CircuitBreaker.Execute (cb : CircuitBreaker) (now : Nat) (fnErr : Option String) :
    ExecOutcome :=
  if cb.state = CircuitBreakerOpen ∧ ¬ now - cb.lastStateChange > cb.timeout then
    { cb := cb, invoked := false, result := .error "circuit breaker is open" }
  else
    let cb1 :=
      if cb.state = CircuitBreakerOpen then
        { cb with
          state := CircuitBreakerHalfOpen
          successCount := 0
          lastStateChange := now }
      else cb
    match fnErr with
    | some e =>
        let cb2 :=
          { cb1 with
            failureCount := cb1.failureCount + 1
            lastFailure := now }
        let cb3 :=
          if cb2.state = CircuitBreakerHalfOpen then
            { cb2 with
              state := CircuitBreakerOpen
              lastStateChange := now }
          else if cb2.failureCount ≥ cb2.maxFailures then
            { cb2 with
              state := CircuitBreakerOpen
              lastStateChange := now }
          else cb2
        { cb := cb3, invoked := true, result := .error e }
    | none =>
        let cb2 := { cb1 with successCount := cb1.successCount + 1 }
        let cb3 :=
          if cb2.state = CircuitBreakerHalfOpen ∧ cb2.successCount ≥ 2 then
            { cb2 with
              state := CircuitBreakerClosed
              failureCount := 0
              lastStateChange := now }
          else cb2
        { cb := cb3, invoked := true, result := .ok () }

def CircuitBreaker.GetState (cb : CircuitBreaker) : String := cb.state

/-! ## `pkg/events/types.go`: base event, cross-region envelope, DLQ record

Payload maps hold either JSON values (DynamoDB attribute values) or raw
byte strings (the zstd-compressed body), matching `map[string]interface{}`.
`json.Marshal` of these structures cannot fail (all field types are
serializable), so the two marshal-error branches of `sendToDLQ` are
unreachable and the marshalled body handed to the sink is modelled by the
record itself. -/

abbrev Bytes := List Nat

inductive PayloadValue where
  | json (j : Json)
  | bytes (b : Bytes)

structure EventMetadata where
  sourceService : String := ""
  userID : String := ""
  tenantID : String := ""
  traceID : String := ""
  version : String := ""
  priority : Int := 0

structure BaseEvent where
  eventID : String := ""
  eventType : String := ""
  sourceRegion : String := ""
  timestamp : Nat := 0
  correlationID : String := ""
  metadata : EventMetadata := {}
  payload : List (String × PayloadValue) := []

structure CrossRegionEvent where
  base : BaseEvent
  targetRegion : String
  originalTimestamp : Nat
  compressionType : String := ""
  checksum : String := ""

structure DeadLetterEvent where
  originalEvent : BaseEvent
  errorMessage : String
  errorType : String
  failureCount : Nat
  firstFailure : Nat
  lastFailure : Nat
  sourceHandler : String
  stackTrace : String := ""

/-- `events.NewBaseEvent`: the generated event id (time-formatted text
plus a random suffix) is injected as `genID`. -/
def NewBaseEvent (eventType sourceRegion : String) (payload : List (String × PayloadValue))
    (genID : String) (now : Nat) : BaseEvent :=
  { eventID := genID
    eventType := eventType
    sourceRegion := sourceRegion
    timestamp := now
    payload := payload
    metadata := { version := "1.0" } }

/-! ## `lambdas/event-router/main.go`: propagation pipeline -/

structure DynamoDBEventRecord where
  eventID : String
  eventName : String
  newImage : List (String × PayloadValue)

/-- `parseRecord`: copy the record's NewImage into the payload, build the
base event, and stamp the record's id and the source service.  The Go
function's error return is always nil. -/
def parseRecord (currentRegion genID : String) (now : Nat) (record : DynamoDBEventRecord) :
    BaseEvent :=
  let payload := record.newImage
  let event := NewBaseEvent record.eventName currentRegion payload genID now
  { event with
    eventID := record.eventID
    metadata := { event.metadata with sourceService := "dynamodb-streams" } }

/-- `sendToDLQ`: build the dead-letter record with fixed
`errorType = "routing_failure"`, `failureCount = 1` and
`sourceHandler = "event-router"`, marshal it, and enqueue it once; the
outcome of `SendToDeadLetterQueue` is injected as `sinkRes`.  Returns the
error result of `sendToDLQ` together with the record handed to the sink. -/
def sendToDLQ (now : Nat) (event : BaseEvent) (processingError : String)
    (sinkRes : Except String Unit) : Option String × DeadLetterEvent :=
  let dlqEvent : DeadLetterEvent :=
    { originalEvent := event
      errorMessage := processingError
      errorType := "routing_failure"
      failureCount := 1
      firstFailure := now
      lastFailure := now
      sourceHandler := "event-router" }
  match sinkRes with
  | .error e => (some ("failed to send to DLQ: " ++ e), dlqEvent)
  | .ok _ => (none, dlqEvent)

structure RecordOutcome where
  env : CrossRegionEvent
  breaker : CircuitBreaker
  publishInvoked : Bool
  dlqAttempts : Nat
  dlqRecord : Option DeadLetterEvent
  dlqFailureLogged : Bool
  ret : Option String

/-- `processRecord`: parse the record, wrap it in a cross-region envelope
with `compressionType = "zstd"`, attempt compression (`compressed` is the
outcome of `compressEvent`, whose body is JSON marshalling plus the
external zstd encoder) — on failure keep the original payload and degrade
the envelope to `compressionType = "none"`, on success replace the payload
with the compressed bytes — then publish through the circuit breaker
(`publishErr` is the outcome of `PublishCrossRegionEvent` when invoked).
On any breaker failure, hand the event to the DLQ exactly once, log (and
do not retry) a DLQ enqueue failure, and return a "failed to route event"
error; on success return nil. -/
def processRecord (partnerRegion currentRegion genID : String) (now : Nat)
    (cb : CircuitBreaker) (record : DynamoDBEventRecord)
    (compressed : Except String Bytes) (publishErr : Option String)
    (dlqSink : Except String Unit) : RecordOutcome :=
  let baseEvent := parseRecord currentRegion genID now record
  let env0 : CrossRegionEvent :=
    { base := baseEvent
      targetRegion := partnerRegion
      originalTimestamp := baseEvent.timestamp
      compressionType := "zstd" }
  let env :=
    match compressed with
    | .error _ => { env0 with compressionType := "none" }
    | .ok bs =>
        { env0 with base := { env0.base with payload := [("compressed_data", .bytes bs)] } }
  let exec := cb.Execute now publishErr
  match exec.result with
  | .error e =>
      let dlq := sendToDLQ now baseEvent e dlqSink
      { env := env
        breaker := exec.cb
        publishInvoked := exec.invoked
        dlqAttempts := 1
        dlqRecord := some dlq.2
        dlqFailureLogged := dlq.1.isSome
        ret := some ("failed to route event: " ++ e) }
  | .ok _ =>
      { env := env
        breaker := exec.cb
        publishInvoked := exec.invoked
        dlqAttempts := 0
        dlqRecord := none
        dlqFailureLogged := false
        ret := none }

/-- One batch record together with its injected external outcomes. -/
structure RecordInput where
  record : DynamoDBEventRecord
  genID : String
  compressed : Except String Bytes
  publishErr : Option String
  dlqSink : Except String Unit

/-- The `for _, record := range event.Records` loop of `Handler`: process
every record in order, threading the shared circuit breaker, collecting
per-record outcomes. -/
def runRecords (partnerRegion currentRegion : String) (now : Nat) :
    CircuitBreaker → List RecordInput → CircuitBreaker × List RecordOutcome
  | cb, [] => (cb, [])
  | cb, ri :: rest =>
      let out := processRecord partnerRegion currentRegion ri.genID now cb ri.record
        ri.compressed ri.publishErr ri.dlqSink
      let r := runRecords partnerRegion currentRegion now out.breaker rest
      (r.1, out :: r.2)

/-- `Handler`: run the batch loop; if any record failed, return the
aggregate "failed to process %d/%d records" error, else nil. -/
def Handler (partnerRegion currentRegion : String) (now : Nat) (cb : CircuitBreaker)
    (records : List RecordInput) : CircuitBreaker × List RecordOutcome × Option String :=
  let r := runRecords partnerRegion currentRegion now cb records
  let errs := r.2.filter (fun o => o.ret.isSome)
  let finalErr :=
    if errs.length > 0 then
      some ("failed to process " ++ toString errs.length ++ "/" ++
        toString records.length ++ " records")
    else none
  (r.1, r.2, finalErr)

/-- The claim phrase "error message contains": `sub` occurs as a
contiguous substring of `s`. -/
abbrev strContains (s sub : String) : Prop := sub.data <:+: s.data

/-! ## General lemmas -/

theorem strContains_of_middle (a b c sub : String) (h : strContains b sub) :
    strContains (a ++ (b ++ c)) sub := by
  obtain ⟨s, t, hst⟩ := h
  refine ⟨a.data ++ s, t ++ c.data, ?_⟩
  rw [String.data_append, String.data_append, ← hst]
  simp

/-! ## Claim theorems -/

/-- Claim C5: in every consumption-loop iteration, a poll that returns no
message within the timeout is a normal non-error outcome; when a message
is received, its offset commit is attempted exactly when the processor
returned success — on processor failure the commit call is not made. -/
theorem consumeMessage_commit_policy :
    ∀ (process : KafkaMessage → Except String Unit) (commitRes : Except String Unit),
      ((KafkaConsumer.consumeMessage .timedOut process commitRes).ret = none ∧
        (KafkaConsumer.consumeMessage .timedOut process commitRes).commitAttempted = false) ∧
      (∀ (m : KafkaMessage) (e : String), process m = .error e →
        (KafkaConsumer.consumeMessage (.msg m) process commitRes).commitAttempted = false ∧
        (KafkaConsumer.consumeMessage (.msg m) process commitRes).ret = some e) ∧
      (∀ m : KafkaMessage, process m = .ok () →
        (KafkaConsumer.consumeMessage (.msg m) process commitRes).commitAttempted = true) := by
  intro process commitRes
  refine ⟨⟨rfl, rfl⟩, ?_, ?_⟩
  · intro m e h
    exact ⟨by simp [KafkaConsumer.consumeMessage, h], by simp [KafkaConsumer.consumeMessage, h]⟩
  · intro m h
    cases hc : commitRes <;> simp [KafkaConsumer.consumeMessage, h, hc]

/-- Witness for C5 at a concrete message and an always-succeeding processor. -/
theorem consumeMessage_commit_policy_witness :
    (fun (_ : KafkaMessage) => (Except.ok () : Except String Unit))
        { value := RawValue.json Json.null } = .ok () ∧
    (KafkaConsumer.consumeMessage (.msg { value := RawValue.json Json.null })
        (fun _ => .ok ()) (.ok ())).commitAttempted = true :=
  ⟨rfl, (consumeMessage_commit_policy (fun _ => .ok ()) (.ok ())).2.2
      { value := RawValue.json Json.null } rfl⟩

/-- Claim C6: dispatch routes strictly by operation tag to the matching
handler for the four recognized tags; any other tag yields an error whose
message contains "unknown operation", and the consumption loop never
commits such a message's offset. -/
theorem dispatch_unknown_operation :
    ∀ ev : CDCEvent,
      (ev.operation = OperationInsert → dispatchCDC ev = .ok .insert) ∧
      (ev.operation = OperationUpdate → dispatchCDC ev = .ok .update) ∧
      (ev.operation = OperationDelete → dispatchCDC ev = .ok .delete) ∧
      (ev.operation = OperationRefresh → dispatchCDC ev = .ok .refresh) ∧
      (ev.operation ≠ OperationInsert → ev.operation ≠ OperationUpdate →
        ev.operation ≠ OperationDelete → ev.operation ≠ OperationRefresh →
        dispatchCDC ev = .error ("unknown operation: " ++ ev.operation) ∧
        ∀ (msg : KafkaMessage) (commitRes : Except String Unit),
          CDCProcessor.parseCDCEvent msg = .ok ev →
          (KafkaConsumer.consumeMessage (.msg msg)
              CDCProcessor.Process commitRes).commitAttempted = false ∧
          ∃ emsg,
            (KafkaConsumer.consumeMessage (.msg msg)
                CDCProcessor.Process commitRes).ret = some emsg ∧
            strContains emsg "unknown operation") := by
  intro ev
  refine ⟨?_, ?_, ?_, ?_, ?_⟩
  · intro h
    simp [dispatchCDC, h]
  · intro h
    simp [dispatchCDC, h, OperationInsert, OperationUpdate]
  · intro h
    simp [dispatchCDC, h, OperationInsert, OperationUpdate, OperationDelete]
  · intro h
    simp [dispatchCDC, h, OperationInsert, OperationUpdate, OperationDelete, OperationRefresh]
  · intro h1 h2 h3 h4
    have hd : dispatchCDC ev = .error ("unknown operation: " ++ ev.operation) := by
      simp [dispatchCDC, h1, h2, h3, h4]
    refine ⟨hd, ?_⟩
    intro msg commitRes hparse
    have hp : CDCProcessor.Process msg =
        .error ("failed to process CDC event: " ++ ("unknown operation: " ++ ev.operation)) := by
      simp [CDCProcessor.Process, hparse, hd]
    refine ⟨by simp [KafkaConsumer.consumeMessage, hp], ?_⟩
    refine ⟨"failed to process CDC event: " ++ ("unknown operation: " ++ ev.operation),
      by simp [KafkaConsumer.consumeMessage, hp], ?_⟩
    exact strContains_of_middle "failed to process CDC event: " "unknown operation: "
      ev.operation "unknown operation" (by decide)

/-- Witness for C6 at the concrete tag "UNKNOWN". -/
theorem dispatch_unknown_operation_witness :
    (("UNKNOWN" : String) ≠ OperationInsert ∧ ("UNKNOWN" : String) ≠ OperationUpdate ∧
      ("UNKNOWN" : String) ≠ OperationDelete ∧ ("UNKNOWN" : String) ≠ OperationRefresh) ∧
    dispatchCDC { operation := "UNKNOWN" } = .error ("unknown operation: " ++ "UNKNOWN") ∧
    (KafkaConsumer.consumeMessage
        (.msg { value := RawValue.json (Json.obj [("operation", Json.str "UNKNOWN")]) })
        CDCProcessor.Process (.ok ())).commitAttempted = false := by
  have h := (dispatch_unknown_operation { operation := "UNKNOWN" }).2.2.2.2
    (by decide) (by decide) (by decide) (by decide)
  exact ⟨⟨by decide, by decide, by decide, by decide⟩, h.1,
    (h.2 { value := RawValue.json (Json.obj [("operation", Json.str "UNKNOWN")]) }
      (.ok ()) rfl).1⟩

/-- Counterexample to claim C2: `parseCDCEvent` accepts a payload whose
operation is INSERT but whose `before` mapping is non-empty and whose
`after` mapping is empty — the INSERT/DELETE/UPDATE emptiness invariants
are not established by parsing. -/
theorem parse_insert_invariant_counterexample :
    CDCProcessor.parseCDCEvent
        { value := RawValue.json (Json.obj
            [("operation", Json.str "INSERT"), ("before", Json.obj [("id", Json.num 1)])]) } =
      .ok { operation := "INSERT", before := [("id", Json.num 1)] } ∧
    ([("id", Json.num 1)] : List (String × Json)) ≠ [] := by
  exact ⟨rfl, by simp⟩

/-- Claim C2 (amended): parsing performs no validation relating the
operation tag to the `before`/`after` mappings — a payload with any
operation string and any combination of `before`/`after` objects is
accepted, and the mappings are passed through exactly as decoded, so the
emptiness invariants hold after parsing only when the raw payload already
satisfies them. -/
theorem parse_no_field_validation (op : String) (b a : List (String × Json)) :
    CDCProcessor.parseCDCEvent
        { value := RawValue.json (Json.obj
            [("operation", Json.str op), ("before", Json.obj b), ("after", Json.obj a)]) } =
      .ok { operation := op, before := mergeObj [] b, after := mergeObj [] a } := rfl

/-- Counterexample to claim C9: a syntactically valid JSON document (the
JSON string "hello") is rejected by `parseCDCEvent` with a ParseError,
because `json.Unmarshal` cannot decode a non-object document into the
`CDCEvent` struct and the Avro codec is nil — so ParseError does not arise
only for non-JSON input. -/
theorem parse_valid_json_counterexample :
    (CDCProcessor.parseCDCEvent { value := RawValue.json (Json.str "hello") }).isOk = false ∧
    CDCProcessor.parseCDCEvent { value := RawValue.json (Json.str "hello") } =
      .error "failed to parse CDC event: unsupported format" := ⟨rfl, rfl⟩

/-- Claim C9 (amended): `parseCDCEvent` accepts every JSON document that
decodes into the record shape — in particular the empty object and
`null` — performing no semantic field validation, so a structurally empty
payload is rejected only later at dispatch with the unknown-operation
error; but ParseError also arises for well-formed JSON that does not fit
the record shape (a non-object top level or a mistyped field), not only
for non-JSON input. -/
theorem parse_accepts_wellformed_json (fs : List (String × Json))
    (h : fs.all (fun kv => cdcFieldOk kv.1 kv.2) = true) :
    CDCProcessor.parseCDCEvent { value := RawValue.json (Json.obj fs) } =
      .ok (decodeCDCFields fs) ∧
    CDCProcessor.parseCDCEvent { value := RawValue.json Json.null } = .ok {} ∧
    CDCProcessor.parseCDCEvent { value := RawValue.json (Json.obj []) } = .ok {} ∧
    CDCProcessor.Process { value := RawValue.json (Json.obj []) } =
      .error ("failed to process CDC event: " ++ ("unknown operation: " ++ "")) ∧
    strContains ("failed to process CDC event: " ++ ("unknown operation: " ++ ""))
      "unknown operation" := by
  refine ⟨?_, rfl, rfl, rfl, by decide⟩
  simp [CDCProcessor.parseCDCEvent, jsonUnmarshalCDCEvent, h]

/-- Witness for the amended C9 at a concrete well-typed payload. -/
theorem parse_accepts_wellformed_json_witness :
    ([("operation", Json.str "INSERT")] : List (String × Json)).all
        (fun kv => cdcFieldOk kv.1 kv.2) = true ∧
    CDCProcessor.parseCDCEvent
        { value := RawValue.json (Json.obj [("operation", Json.str "INSERT")]) } =
      .ok (decodeCDCFields [("operation", Json.str "INSERT")]) :=
  ⟨rfl, (parse_accepts_wellformed_json [("operation", Json.str "INSERT")] rfl).1⟩

/-- Claim C3: with `maxFailures = 3` from a fresh Closed breaker, each
failing Execute increments `failureCount`; the third failing call
transitions Closed to Open recording the transition time; a fourth call
while still within `openTimeout` of the state change is rejected with the
"circuit breaker is open" error without invoking the wrapped operation. -/
theorem breaker_opens_after_three_failures
    (tmo t0 t1 t2 t3 t4 : Nat) (e1 e2 e3 : String) (pub4 : Option String)
    (r1 r2 r3 r4 : ExecOutcome)
    (h1 : r1 = (NewCircuitBreaker 3 tmo t0).Execute t1 (some e1))
    (h2 : r2 = r1.cb.Execute t2 (some e2))
    (h3 : r3 = r2.cb.Execute t3 (some e3))
    (h4 : t4 - r3.cb.lastStateChange ≤ tmo)
    (h5 : r4 = r3.cb.Execute t4 pub4) :
    r1.cb.state = CircuitBreakerClosed ∧ r1.cb.failureCount = 1 ∧ r1.invoked = true ∧
    r2.cb.state = CircuitBreakerClosed ∧ r2.cb.failureCount = 2 ∧ r2.invoked = true ∧
    r3.cb.state = CircuitBreakerOpen ∧ r3.cb.failureCount = 3 ∧
    r3.cb.lastStateChange = t3 ∧ r3.invoked = true ∧
    r4.invoked = false ∧ r4.result = .error "circuit breaker is open" ∧
    r4.cb.failureCount = 3 := by
  subst h1 h2 h3 h5
  have h4' : t4 - t3 ≤ tmo := by
    simpa [NewCircuitBreaker, CircuitBreaker.Execute, CircuitBreakerClosed,
      CircuitBreakerOpen, CircuitBreakerHalfOpen] using h4
  have hnot : ¬ tmo < t4 - t3 := Nat.not_lt.mpr h4'
  simp [NewCircuitBreaker, CircuitBreaker.Execute, CircuitBreakerClosed,
    CircuitBreakerOpen, CircuitBreakerHalfOpen, hnot]

/-- Witness for C3 at concrete times within the timeout window. -/
theorem breaker_opens_after_three_failures_witness :
    ((((NewCircuitBreaker 3 10 0).Execute 1 (some "a")).cb.Execute 2 (some "b")).cb.Execute 3
        (some "c")).cb.state = CircuitBreakerOpen ∧
    (((((NewCircuitBreaker 3 10 0).Execute 1 (some "a")).cb.Execute 2 (some "b")).cb.Execute 3
        (some "c")).cb.Execute 4 (some "d")).invoked = false := by
  have h := breaker_opens_after_three_failures 10 0 1 2 3 4 "a" "b" "c" (some "d")
    ((NewCircuitBreaker 3 10 0).Execute 1 (some "a"))
    (((NewCircuitBreaker 3 10 0).Execute 1 (some "a")).cb.Execute 2 (some "b"))
    ((((NewCircuitBreaker 3 10 0).Execute 1 (some "a")).cb.Execute 2 (some "b")).cb.Execute 3
      (some "c"))
    (((((NewCircuitBreaker 3 10 0).Execute 1 (some "a")).cb.Execute 2 (some "b")).cb.Execute 3
      (some "c")).cb.Execute 4 (some "d"))
    rfl rfl rfl (by decide) rfl
  exact ⟨h.2.2.2.2.2.2.1, h.2.2.2.2.2.2.2.2.2.2.1⟩

/-- Claim C4: an Execute call on an Open breaker after `openTimeout` has
elapsed transitions to HalfOpen, resets `successCount` to 0 (one success
then reads 1 whatever the prior count), and invokes the operation; any
failing call while HalfOpen returns to Open; two cumulative HalfOpen
successes transition to Closed and reset `failureCount` to 0. -/
theorem breaker_halfopen_probe
    (cb : CircuitBreaker) (now t2 : Nat) (e : String)
    (rFail rS1 rS2 : ExecOutcome)
    (hstate : cb.state = CircuitBreakerOpen)
    (htime : now - cb.lastStateChange > cb.timeout)
    (hf : rFail = cb.Execute now (some e))
    (hs1 : rS1 = cb.Execute now none)
    (hs2 : rS2 = rS1.cb.Execute t2 none) :
    (rFail.invoked = true ∧ rFail.cb.state = CircuitBreakerOpen) ∧
    (rS1.invoked = true ∧ rS1.cb.state = CircuitBreakerHalfOpen ∧ rS1.cb.successCount = 1) ∧
    (rS2.cb.state = CircuitBreakerClosed ∧ rS2.cb.failureCount = 0 ∧
      rS2.cb.successCount = 2) ∧
    (∀ (cb' : CircuitBreaker) (t : Nat) (e' : String), cb'.state = CircuitBreakerHalfOpen →
      (cb'.Execute t (some e')).cb.state = CircuitBreakerOpen ∧
      (cb'.Execute t (some e')).invoked = true) := by
  subst hf hs1 hs2
  refine ⟨?_, ?_, ?_, ?_⟩
  · constructor <;> simp [CircuitBreaker.Execute, hstate, htime, CircuitBreakerOpen,
      CircuitBreakerHalfOpen]
  · refine ⟨?_, ?_, ?_⟩ <;> simp [CircuitBreaker.Execute, hstate, htime, CircuitBreakerOpen,
      CircuitBreakerHalfOpen]
  · refine ⟨?_, ?_, ?_⟩ <;> simp [CircuitBreaker.Execute, hstate, htime, CircuitBreakerOpen,
      CircuitBreakerHalfOpen, CircuitBreakerClosed]
  · intro cb' t e' h'
    constructor <;> simp [CircuitBreaker.Execute, h', CircuitBreakerOpen, CircuitBreakerHalfOpen]

/-- An Open breaker whose timeout window has elapsed by time 10, used to
witness C4. -/
def probeBreaker : CircuitBreaker :=
  { maxFailures := 2
    timeout := 5
    state := CircuitBreakerOpen
    failureCount := 2
    successCount := 7
    lastFailure := 1
    lastStateChange := 1 }

/-- Witness for C4 on `probeBreaker` at time 10. -/
theorem breaker_halfopen_probe_witness :
    probeBreaker.state = CircuitBreakerOpen ∧
    10 - probeBreaker.lastStateChange > probeBreaker.timeout ∧
    ((probeBreaker.Execute 10 none).cb.Execute 11 none).cb.state = CircuitBreakerClosed ∧
    ((probeBreaker.Execute 10 none).cb.Execute 11 none).cb.failureCount = 0 := by
  have h := breaker_halfopen_probe probeBreaker 10 11 "boom"
    (probeBreaker.Execute 10 (some "boom")) (probeBreaker.Execute 10 none)
    ((probeBreaker.Execute 10 none).cb.Execute 11 none)
    rfl (by decide) rfl rfl rfl
  exact ⟨rfl, by decide, h.2.2.1.1, h.2.2.1.2.1⟩


/-- Claim C10: a successful Execute while Closed leaves `failureCount`
unchanged; `failureCount` ever decreases only on the HalfOpen-to-Closed
transition (where it is reset to 0); and from Closed, a failing call whose
incremented count reaches `maxFailures` transitions to Open — so
`maxFailures` cumulative failures since the last reset open the breaker
even when separated by successes. -/
theorem breaker_failure_count_policy :
    (∀ (cb : CircuitBreaker) (now : Nat), cb.state = CircuitBreakerClosed →
      (cb.Execute now none).cb.failureCount = cb.failureCount) ∧
    (∀ (cb : CircuitBreaker) (now : Nat) (fnErr : Option String),
      (cb.Execute now fnErr).cb.failureCount < cb.failureCount →
      cb.state = CircuitBreakerHalfOpen ∧ fnErr = none ∧
      (cb.Execute now fnErr).cb.state = CircuitBreakerClosed ∧
      (cb.Execute now fnErr).cb.failureCount = 0) ∧
    (∀ (cb : CircuitBreaker) (now : Nat) (e : String), cb.state = CircuitBreakerClosed →
      cb.maxFailures ≤ cb.failureCount + 1 →
      (cb.Execute now (some e)).cb.state = CircuitBreakerOpen) := by
  have hne1 : CircuitBreakerClosed ≠ CircuitBreakerOpen := by decide
  have hne2 : CircuitBreakerClosed ≠ CircuitBreakerHalfOpen := by decide
  have hne3 : CircuitBreakerHalfOpen ≠ CircuitBreakerOpen := by decide
  have hne4 : CircuitBreakerOpen ≠ CircuitBreakerHalfOpen := by decide
  refine ⟨?_, ?_, ?_⟩
  · intro cb now h
    simp [CircuitBreaker.Execute, h, hne1, hne2]
  · intro cb now fnErr hlt
    by_cases hopen : cb.state = CircuitBreakerOpen ∧ ¬ now - cb.lastStateChange > cb.timeout
    · exfalso
      simp [CircuitBreaker.Execute, hopen] at hlt
      try omega
    · cases fnErr with
      | some e =>
        exfalso
        by_cases hcb : cb.state = CircuitBreakerOpen
        · have hB : now - cb.lastStateChange > cb.timeout := by
            by_contra hn
            exact hopen ⟨hcb, hn⟩
          simp [CircuitBreaker.Execute, hopen, hcb, hB, hne3, hne4] at hlt
          try omega
        · by_cases hho : cb.state = CircuitBreakerHalfOpen
          · simp [CircuitBreaker.Execute, hopen, hcb, hho, hne3, hne4] at hlt
            try omega
          · by_cases hmax : cb.maxFailures ≤ cb.failureCount + 1
            · simp [CircuitBreaker.Execute, hopen, hcb, hho, hmax, ge_iff_le,
                hne3, hne4] at hlt
              try omega
            · simp [CircuitBreaker.Execute, hopen, hcb, hho, hmax, ge_iff_le,
                hne3, hne4] at hlt
              try omega
      | none =>
        by_cases hcb : cb.state = CircuitBreakerOpen
        · exfalso
          have hB : now - cb.lastStateChange > cb.timeout := by
            by_contra hn
            exact hopen ⟨hcb, hn⟩
          simp [CircuitBreaker.Execute, hopen, hcb, hB, hne3, hne4] at hlt
          try omega
        · by_cases hho : cb.state = CircuitBreakerHalfOpen
          · by_cases hsc : 1 ≤ cb.successCount
            · refine ⟨hho, rfl, ?_, ?_⟩ <;>
                simp [CircuitBreaker.Execute, hopen, hcb, hho, hsc, ge_iff_le, hne3, hne4]
            · exfalso
              simp [CircuitBreaker.Execute, hopen, hcb, hho, hsc, ge_iff_le, hne3, hne4] at hlt
              try omega
          · exfalso
            simp [CircuitBreaker.Execute, hopen, hcb, hho, hne3, hne4] at hlt
            try omega
  · intro cb now e hclosed hmax
    simp [CircuitBreaker.Execute, hclosed, hmax, ge_iff_le, hne1, hne2]

/-- A Closed breaker one failure away from its threshold, used to witness
C10. -/
def closedBreaker : CircuitBreaker :=
  { maxFailures := 3
    timeout := 10
    state := CircuitBreakerClosed
    failureCount := 2
    successCount := 4
    lastFailure := 0
    lastStateChange := 0 }

/-- Witness for C10: a success leaves the count at 2, and the third
cumulative failure opens `closedBreaker`. -/
theorem breaker_failure_count_policy_witness :
    closedBreaker.state = CircuitBreakerClosed ∧
    closedBreaker.maxFailures ≤ closedBreaker.failureCount + 1 ∧
    (closedBreaker.Execute 5 none).cb.failureCount = closedBreaker.failureCount ∧
    (closedBreaker.Execute 5 (some "err")).cb.state = CircuitBreakerOpen :=
  ⟨rfl, by decide, breaker_failure_count_policy.1 closedBreaker 5 rfl,
    breaker_failure_count_policy.2.2 closedBreaker 5 "err" rfl (by decide)⟩

/-- Claim C7: on any failure returned by the breaker (a publish error or
the "circuit open" rejection), the pipeline hands the dead-letter sink a
record with `errorType = "routing_failure"`, `failureCount = 1` and
`sourceHandler = "event-router"` wrapping the parsed event, exactly once;
a failure of the dead-letter enqueue itself is logged and not retried. -/
theorem dlq_record_shape
    (partnerRegion currentRegion genID : String) (now : Nat) (cb : CircuitBreaker)
    (record : DynamoDBEventRecord) (compressed : Except String Bytes)
    (publishErr : Option String) (dlqSink : Except String Unit) (e : String)
    (out : RecordOutcome)
    (hout : out = processRecord partnerRegion currentRegion genID now cb record compressed
      publishErr dlqSink)
    (hfail : (cb.Execute now publishErr).result = .error e) :
    out.dlqRecord = some
      { originalEvent := parseRecord currentRegion genID now record
        errorMessage := e
        errorType := "routing_failure"
        failureCount := 1
        firstFailure := now
        lastFailure := now
        sourceHandler := "event-router" } ∧
    out.dlqAttempts = 1 ∧
    (∀ de, dlqSink = .error de → out.dlqFailureLogged = true) := by
  subst hout
  cases hsink : dlqSink with
  | error de =>
      refine ⟨?_, ?_, ?_⟩ <;>
        simp [processRecord, sendToDLQ, hfail, hsink]
  | ok u =>
      refine ⟨?_, ?_, ?_⟩ <;>
        simp [processRecord, sendToDLQ, hfail, hsink]

/-- Witness for C7: a publish failure on a fresh breaker with a failing
dead-letter sink. -/
theorem dlq_record_shape_witness :
    ((NewCircuitBreaker 5 30 0).Execute 3 (some "boom")).result = .error "boom" ∧
    (processRecord "us-east-1" "us-west-2" "gid" 3 (NewCircuitBreaker 5 30 0)
        { eventID := "evt-1", eventName := "INSERT", newImage := [] }
        (.ok [1]) (some "boom") (.error "sink down")).dlqAttempts = 1 ∧
    (processRecord "us-east-1" "us-west-2" "gid" 3 (NewCircuitBreaker 5 30 0)
        { eventID := "evt-1", eventName := "INSERT", newImage := [] }
        (.ok [1]) (some "boom") (.error "sink down")).dlqFailureLogged = true := by
  have h := dlq_record_shape "us-east-1" "us-west-2" "gid" 3 (NewCircuitBreaker 5 30 0)
    { eventID := "evt-1", eventName := "INSERT", newImage := [] }
    (.ok [1]) (some "boom") (.error "sink down") "boom"
    (processRecord "us-east-1" "us-west-2" "gid" 3 (NewCircuitBreaker 5 30 0)
      { eventID := "evt-1", eventName := "INSERT", newImage := [] }
      (.ok [1]) (some "boom") (.error "sink down"))
    rfl rfl
  exact ⟨rfl, h.2.1, h.2.2 "sink down" rfl⟩

/-- Claim C8: when compression fails the pipeline does not abort — it
proceeds to the breaker-guarded publish attempt with the original
uncompressed payload and the envelope degraded to
`compressionType = "none"`; when compression succeeds the envelope keeps
`compressionType = "zstd"` and the compressed bytes become the payload. -/
theorem compression_degrades_gracefully
    (partnerRegion currentRegion genID : String) (now : Nat) (cb : CircuitBreaker)
    (record : DynamoDBEventRecord) (compressed : Except String Bytes)
    (publishErr : Option String) (dlqSink : Except String Unit) (out : RecordOutcome)
    (hout : out = processRecord partnerRegion currentRegion genID now cb record compressed
      publishErr dlqSink) :
    (∀ ce, compressed = .error ce →
      out.env.compressionType = "none" ∧
      out.env.base.payload = record.newImage ∧
      out.breaker = (cb.Execute now publishErr).cb ∧
      out.publishInvoked = (cb.Execute now publishErr).invoked) ∧
    (∀ bs, compressed = .ok bs →
      out.env.compressionType = "zstd" ∧
      out.env.base.payload = [("compressed_data", PayloadValue.bytes bs)] ∧
      out.breaker = (cb.Execute now publishErr).cb ∧
      out.publishInvoked = (cb.Execute now publishErr).invoked) := by
  subst hout
  constructor <;> intro x hx <;>
    cases hres : (cb.Execute now publishErr).result <;>
      refine ⟨?_, ?_, ?_, ?_⟩ <;>
        simp [processRecord, parseRecord, NewBaseEvent, hx, hres]

/-- Witness for C8 at a concrete record whose compression fails. -/
theorem compression_degrades_gracefully_witness :
    (Except.error "zstd down" : Except String Bytes) = .error "zstd down" ∧
    (processRecord "us-east-1" "us-west-2" "gid" 7 (NewCircuitBreaker 5 30 0)
        { eventID := "evt-2", eventName := "MODIFY", newImage := [("k", .json (Json.num 2))] }
        (.error "zstd down") none (.ok ())).env.compressionType = "none" ∧
    (processRecord "us-east-1" "us-west-2" "gid" 7 (NewCircuitBreaker 5 30 0)
        { eventID := "evt-2", eventName := "MODIFY", newImage := [("k", .json (Json.num 2))] }
        (.error "zstd down") none (.ok ())).env.base.payload =
      [("k", .json (Json.num 2))] := by
  have h := (compression_degrades_gracefully "us-east-1" "us-west-2" "gid" 7
    (NewCircuitBreaker 5 30 0)
    { eventID := "evt-2", eventName := "MODIFY", newImage := [("k", .json (Json.num 2))] }
    (.error "zstd down") none (.ok ())
    (processRecord "us-east-1" "us-west-2" "gid" 7 (NewCircuitBreaker 5 30 0)
      { eventID := "evt-2", eventName := "MODIFY", newImage := [("k", .json (Json.num 2))] }
      (.error "zstd down") none (.ok ()))
    rfl).1 "zstd down" rfl
  exact ⟨rfl, h.1, h.2.1⟩

/-- Counterexample to claim C1: a publish failure does make `processRecord`
return an error to its caller, and a single failing record makes `Handler`
return a batch-level error — the failure is dead-lettered but still
surfaces as an unrecoverable error for the batch. -/
theorem pipeline_error_counterexample :
    (processRecord "us-east-1" "us-west-2" "gid" 5 (NewCircuitBreaker 5 30 0)
        { eventID := "evt-1", eventName := "INSERT", newImage := [] }
        (.ok [1]) (some "publish failed") (.ok ())).ret =
      some "failed to route event: publish failed" ∧
    (Handler "us-east-1" "us-west-2" 5 (NewCircuitBreaker 5 30 0)
        [{ record := { eventID := "evt-1", eventName := "INSERT", newImage := [] }
           genID := "gid"
           compressed := .ok [1]
           publishErr := some "publish failed"
           dlqSink := .ok () }]).2.2 = some "failed to process 1/1 records" := ⟨rfl, rfl⟩

/-- Claim C1 (amended): on a publish failure through the breaker the
pipeline performs the dead-letter hand-off (logging an enqueue failure)
and then returns a "failed to route event" error for that record; the
batch loop still processes every record of the batch, and the Handler
returns a batch-level error exactly when at least one record failed. -/
theorem pipeline_returns_routing_error :
    (∀ (pr cur gid : String) (now : Nat) (cb : CircuitBreaker) (record : DynamoDBEventRecord)
        (compressed : Except String Bytes) (publishErr : Option String)
        (dlqSink : Except String Unit) (e : String),
      (cb.Execute now publishErr).result = .error e →
      (processRecord pr cur gid now cb record compressed publishErr dlqSink).dlqAttempts = 1 ∧
      (processRecord pr cur gid now cb record compressed publishErr
        dlqSink).dlqRecord.isSome = true ∧
      (processRecord pr cur gid now cb record compressed publishErr dlqSink).ret =
        some ("failed to route event: " ++ e)) ∧
    (∀ (pr cur : String) (now : Nat) (cb : CircuitBreaker) (records : List RecordInput),
      (runRecords pr cur now cb records).2.length = records.length) ∧
    (∀ (pr cur : String) (now : Nat) (cb : CircuitBreaker) (records : List RecordInput),
      ((Handler pr cur now cb records).2.2 = none ↔
        ∀ o ∈ (runRecords pr cur now cb records).2, o.ret = none)) := by
  refine ⟨?_, ?_, ?_⟩
  · intro pr cur gid now cb record compressed publishErr dlqSink e hfail
    refine ⟨?_, ?_, ?_⟩ <;> simp [processRecord, hfail]
  · intro pr cur now cb records
    induction records generalizing cb with
    | nil => simp [runRecords]
    | cons ri rest ih => simp [runRecords, ih]
  · intro pr cur now cb records
    simp only [Handler]
    split_ifs with h
    · constructor
      · intro hc
        exact absurd hc (by simp)
      · intro hall
        exfalso
        have hnil : (runRecords pr cur now cb records).2.filter (fun o => o.ret.isSome) = [] :=
          List.filter_eq_nil_iff.mpr (fun o ho => by simp [hall o ho])
        rw [hnil] at h
        simp at h
    · have hlen : ((runRecords pr cur now cb records).2.filter
          (fun o => o.ret.isSome)).length = 0 := by omega
      have hnil := List.length_eq_zero.mp hlen
      have hmem := List.filter_eq_nil_iff.mp hnil
      constructor
      · intro _ o ho
        have hno := hmem o ho
        cases hor : o.ret with
        | none => rfl
        | some v =>
            rw [hor] at hno
            simp at hno
      · intro _
        rfl

/-- Witness for the amended C1 at a concrete failing publish. -/
theorem pipeline_returns_routing_error_witness :
    ((NewCircuitBreaker 5 30 0).Execute 5 (some "boom")).result = .error "boom" ∧
    (processRecord "us-east-1" "us-west-2" "gid" 5 (NewCircuitBreaker 5 30 0)
        { eventID := "evt-9", eventName := "REMOVE", newImage := [] }
        (.ok [2]) (some "boom") (.ok ())).ret = some ("failed to route event: " ++ "boom") :=
  ⟨rfl, (pipeline_returns_routing_error.1 "us-east-1" "us-west-2" "gid" 5
      (NewCircuitBreaker 5 30 0) { eventID := "evt-9", eventName := "REMOVE", newImage := [] }
      (.ok [2]) (some "boom") (.ok ()) "boom" rfl).2.2⟩
